import Mathlib

/-!
Verification of `src/models.py` of the `neo` repository.

The Python module defines two classes, `NearEarthObject` and `CloseApproach`,
constructed from keyword-argument mappings of raw field values.  We embed the
module shallowly:

* raw field values (which in this data set are strings or Python `None`) become
  the inductive type `RawVal`;
* the keyword mapping becomes an association list `FieldMap`, and a dictionary
  access `info['k']` becomes `getKey`, which fails with a key error exactly when
  the key is absent;
* Python floats become `PFloat`: either the not-a-number value `nan` or a
  finite value modelled as an exact fraction `Frac` (an integer numerator over
  a positive power-of-ten denominator, compared by value).  Python's float
  equality, under which `nan` compares unequal to everything (including
  itself), becomes `PFloat.pyEq`.  `float(x)` on a raw value becomes `pyFloat`, which parses
  decimal literals (optional sign, digits, decimal point, exponent) and the
  literal "nan", raises a value error on other strings, and raises a type
  error on `None`;
* Python's fixed-point float formatting `x:.pf` becomes `formatFixed`, which
  rounds the stored value half-to-even to `p` decimal places and prints "nan"
  for the not-a-number value;
* fallible code returns `Except PyErr`.
-/

/-- A raw field value supplied to a constructor: in this data set either the
Python value `None` or a string. -/
inductive RawVal where
  | rnone : RawVal
  | rstr : String → RawVal
deriving DecidableEq

/-- The Python exceptions the embedded code can raise. -/
inductive PyErr where
  | keyError : String → PyErr
  | valueError : PyErr
  | typeError : PyErr
  | attributeError : PyErr
deriving DecidableEq

deriving instance DecidableEq for Except

/-- An exact fraction: an integer numerator over a (always positive, in this
development a power of ten) natural denominator.  Stands for the numeric
value of a finite Python float. -/
structure Frac where
  num : ℤ
  den : ℕ
deriving DecidableEq

/-- Numeric equality of two fractions, by cross multiplication. -/
def Frac.valEq (a b : Frac) : Bool :=
  decide (a.num * (b.den : ℤ) = b.num * (a.den : ℤ))

/-- A Python float: the not-a-number value, or a finite value modelled as an
exact fraction. -/
inductive PFloat where
  | nan : PFloat
  | fin : Frac → PFloat
deriving DecidableEq

/-- Python `==` between floats: `nan` is unequal to everything, itself
included; finite values compare numerically. -/
def PFloat.pyEq : PFloat → PFloat → Bool
  | .nan, _ => false
  | _, .nan => false
  | .fin a, .fin b => a.valEq b

/-- Python `v == s` between a raw field value and a string literal:
`None == s` is false, strings compare by value. -/
def RawVal.pyEqStr (v : RawVal) (s : String) : Bool :=
  match v with
  | .rnone => false
  | .rstr t => decide (t = s)

/-- Python `v is None` for a raw field value. -/
def RawVal.isNone : RawVal → Bool
  | .rnone => true
  | .rstr _ => false

/-- Python `str(v)` for a raw field value. -/
def pyStr : RawVal → String
  | .rnone => "None"
  | .rstr s => s

/-- Python `repr(v)` for a raw field value (strings without special characters
print between single quotes). -/
def pyRepr : RawVal → String
  | .rnone => "None"
  | .rstr s => "\x27" ++ s ++ "\x27"

/-- Python `repr` of an attribute holding either `None` or a raw value. -/
def optRepr : Option RawVal → String
  | none => "None"
  | some v => pyRepr v

/-- Python `repr(b)` for a boolean. -/
def boolRepr (b : Bool) : String :=
  if b then "True" else "False"

/-- The keyword-argument mapping supplied to a constructor. -/
def FieldMap := List (String × RawVal)

/-- Python `info[k]`: the value stored under `k`, or a `KeyError` naming `k`
when the key is absent. -/
def getKey (info : FieldMap) (k : String) : Except PyErr RawVal :=
  match List.lookup k info with
  | some v => .ok v
  | none => .error (.keyError k)

/-- The numeric value of a digit list (most significant first). -/
def natOfDigits (l : List Char) : Nat :=
  l.foldl (fun a c => 10 * a + (c.toNat - 48)) 0

/-- Parse the mantissa of a decimal literal: digits with at most one decimal
point, at least one digit in total; the value is all digits over ten to the
number of fraction digits. -/
def parseMantissa (l : List Char) : Option Frac :=
  let intPart := l.takeWhile (·.isDigit)
  let rest := l.dropWhile (·.isDigit)
  match rest with
  | [] => if intPart.isEmpty then none else some ⟨natOfDigits intPart, 1⟩
  | '.' :: frac =>
      if frac.all (·.isDigit) && !(intPart.isEmpty && frac.isEmpty) then
        some ⟨natOfDigits (intPart ++ frac), 10 ^ frac.length⟩
      else none
  | _ => none

/-- Parse an optionally signed integer (used for the exponent part). -/
def parseSignedInt (l : List Char) : Option ℤ :=
  match l with
  | '+' :: ds =>
      if !ds.isEmpty && ds.all (·.isDigit) then some (natOfDigits ds) else none
  | '-' :: ds =>
      if !ds.isEmpty && ds.all (·.isDigit) then
        some (-(natOfDigits ds : ℤ))
      else none
  | ds =>
      if !ds.isEmpty && ds.all (·.isDigit) then some (natOfDigits ds) else none

/-- Split a character list at the first exponent marker `e`/`E`. -/
def splitExp : List Char → List Char × Option (List Char)
  | [] => ([], none)
  | c :: cs =>
      if c = 'e' || c = 'E' then ([], some cs)
      else
        let p := splitExp cs
        (c :: p.1, p.2)

/-- Python `float(s)` on a string, restricted to decimal literals (optional
sign, digits with at most one point, optional decimal exponent) and the
lowercase literal "nan"; every other string is a parse failure (`ValueError`
in the caller). -/
def parseFloat (s : String) : Option PFloat :=
  let l := s.data
  let sign : Bool × List Char :=
    match l with
    | '+' :: r => (false, r)
    | '-' :: r => (true, r)
    | r => (false, r)
  let neg := sign.1
  let l1 := sign.2
  if l1 = ['n', 'a', 'n'] then some .nan
  else
    let p := splitExp l1
    match parseMantissa p.1 with
    | none => none
    | some m =>
        let v : Frac := if neg then ⟨-m.num, m.den⟩ else m
        match p.2 with
        | none => some (.fin v)
        | some e =>
            match parseSignedInt e with
            | none => none
            | some z =>
                if 0 ≤ z then some (.fin ⟨v.num * 10 ^ z.toNat, v.den⟩)
                else some (.fin ⟨v.num, v.den * 10 ^ (-z).toNat⟩)

/-- Python `float(v)` on a raw field value: parse a string, `TypeError` on
`None`, `ValueError` on an unparsable string. -/
def pyFloat (v : RawVal) : Except PyErr PFloat :=
  match v with
  | .rnone => .error .typeError
  | .rstr s =>
      match parseFloat s with
      | some x => .ok x
      | none => .error .valueError

/-- Round a fraction to the nearest integer, ties to the even integer
(the rounding Python's fixed-point float formatting performs): with
`fl = ⌊num/den⌋` and remainder `rem = num - fl*den`, the fractional part
`rem/den` is compared with one half by cross multiplication. -/
def roundHalfEven (g : Frac) : ℤ :=
  let fl : ℤ := Int.fdiv g.num (g.den : ℤ)
  let rem : ℤ := g.num - fl * (g.den : ℤ)
  if 2 * rem < (g.den : ℤ) then fl
  else if (g.den : ℤ) < 2 * rem then fl + 1
  else if fl % 2 = 0 then fl else fl + 1

/-- Render a natural number left-padded with zeros to width `w`. -/
def padZeros (w : Nat) (n : Nat) : String :=
  let s := toString n
  String.mk (List.replicate (w - s.length) '0') ++ s

/-- Python `x:.pf` fixed-point formatting of a float: "nan" for the
not-a-number value; otherwise the value rounded half-to-even to `p` decimal
places, with a leading minus sign for negative values. -/
def formatFixed (x : PFloat) (p : Nat) : String :=
  match x with
  | .nan => "nan"
  | .fin q =>
      let sign := if q.num < 0 then "-" else ""
      let m := (roundHalfEven ⟨q.num.natAbs * 10 ^ p, q.den⟩).toNat
      let ip := m / 10 ^ p
      let fp := m % 10 ^ p
      if p = 0 then sign ++ toString ip
      else sign ++ toString ip ++ "." ++ padZeros p fp

/-- A calendar timestamp with minute precision, the result type of the date
parsing helper. -/
structure DateTime where
  year : Nat
  month : Nat
  day : Nat
  hour : Nat
  minute : Nat
deriving DecidableEq

/-- Split a character list on a separator character (structural analogue of
string splitting; the separator is dropped, empty pieces are kept). -/
def splitOnChar (c : Char) : List Char → List (List Char)
  | [] => [[]]
  | x :: xs =>
      let r := splitOnChar c xs
      if x = c then [] :: r
      else
        match r with
        | [] => [[x]]
        | h :: t => (x :: h) :: t

/-- The numeric value of a nonempty all-digit character list, `none`
otherwise. -/
def digitsToNat? (l : List Char) : Option Nat :=
  if !l.isEmpty && l.all (·.isDigit) then some (natOfDigits l) else none

/-- Month number of a three-letter English month abbreviation. -/
def monthOfAbbrev (l : List Char) : Option Nat :=
  if l = ['J', 'a', 'n'] then some 1
  else if l = ['F', 'e', 'b'] then some 2
  else if l = ['M', 'a', 'r'] then some 3
  else if l = ['A', 'p', 'r'] then some 4
  else if l = ['M', 'a', 'y'] then some 5
  else if l = ['J', 'u', 'n'] then some 6
  else if l = ['J', 'u', 'l'] then some 7
  else if l = ['A', 'u', 'g'] then some 8
  else if l = ['S', 'e', 'p'] then some 9
  else if l = ['O', 'c', 't'] then some 10
  else if l = ['N', 'o', 'v'] then some 11
  else if l = ['D', 'e', 'c'] then some 12
  else none

/-- Modelled from the spec: `cd_to_datetime` from `helpers.py`, which is not
under `src/`.  The spec says it "accepts the dataset's specific date-time
string format" (the scenario fixes it as `YYYY-Mon-DD HH:MM`, e.g.
"1900-Jan-01 00:00") and yields a timestamp with minute precision; a string
not in that format is a conversion failure (`ValueError`). -/
def cd_to_datetime (s : String) : Except PyErr DateTime :=
  match splitOnChar '-' s.data with
  | [ys, ms, rest] =>
      match splitOnChar ' ' rest with
      | [ds, ts] =>
          match splitOnChar ':' ts with
          | [hs, mis] =>
              match digitsToNat? ys, monthOfAbbrev ms, digitsToNat? ds,
                  digitsToNat? hs, digitsToNat? mis with
              | some y, some mo, some d, some h, some mi =>
                  if 1 ≤ d && d ≤ 31 && h < 24 && mi < 60 then
                    .ok ⟨y, mo, d, h, mi⟩
                  else .error .valueError
              | _, _, _, _, _ => .error .valueError
          | _ => .error .valueError
      | _ => .error .valueError
  | _ => .error .valueError

/-- Modelled from the spec: `datetime_to_str` from `helpers.py`, which is not
under `src/`.  The spec says it formats a timestamp (or its absence) into the
canonical `YYYY-MM-DD HH:MM` string with no seconds component, producing a
deterministic placeholder for an absent time; we use the placeholder "None". -/
def datetime_to_str : Option DateTime → String
  | none => "None"
  | some d =>
      padZeros 4 d.year ++ "-" ++ padZeros 2 d.month ++ "-" ++ padZeros 2 d.day
        ++ " " ++ padZeros 2 d.hour ++ ":" ++ padZeros 2 d.minute

/-- The core fields of a `NearEarthObject` (the part a `CloseApproach`'s `neo`
reference reads): primary designation (stored verbatim), optional name (the
Python attribute is `None` when no name was kept), diameter in kilometers
(`PFloat.nan` when unknown), and the hazardous flag. -/
structure NeoData where
  designation : RawVal
  name : Option RawVal
  diameter : PFloat
  hazardous : Bool
deriving DecidableEq

/-- One close approach, as constructed by `CloseApproach.__init__`:
`_designation` is `str(info['designation'])`, `time` is the parsed timestamp
or `None`, `distance` and `velocity` are `float(...)` of the raw fields, and
`neo` is the reference to the owning NEO, `None` until the external linking
step sets it. -/
structure CloseApproach where
  _designation : String
  time : Option DateTime
  distance : PFloat
  velocity : PFloat
  neo : Option NeoData
deriving DecidableEq

/-- A `NearEarthObject`: the core fields plus the owned list of close
approaches, initialized empty by the constructor and populated later by the
external `NEODatabase` linking step. -/
structure NearEarthObject extends NeoData where
  approaches : List CloseApproach
deriving DecidableEq

/-- The `self.name` assignment of `NearEarthObject.__init__`: start from
`None`, keep the supplied value when it is `!= ''` and `is not None`. -/
def nameField (v : RawVal) : Option RawVal :=
  if !(v.pyEqStr "") && !v.isNone then some v else none

/-- The `self.diameter` assignment of `NearEarthObject.__init__`: start from
`float('nan')`; when the raw value is `!= ''`, compute `float(value)`
(propagating its error) and keep it when it is `!= float('nan')` — a
comparison that is always true under Python float semantics. -/
def diameterField (v : RawVal) : Except PyErr PFloat :=
  if !(v.pyEqStr "") then
    match pyFloat v with
    | .error e => .error e
    | .ok x => if !(x.pyEq PFloat.nan) then .ok x else .ok PFloat.nan
  else .ok PFloat.nan

/-- The `self.time` assignment of `CloseApproach.__init__`: keep `None` when
the raw value `is None`, otherwise convert through `cd_to_datetime`
(propagating its error). -/
def timeField (v : RawVal) : Except PyErr (Option DateTime) :=
  match v with
  | .rnone => .ok none
  | .rstr s =>
      match cd_to_datetime s with
      | .error e => .error e
      | .ok dt => .ok (some dt)

/-- `NearEarthObject.__init__`: the statements of the constructor in source
order, each dictionary access and conversion propagating its exception. -/
def neoNew (info : FieldMap) : Except PyErr NearEarthObject :=
  match getKey info "designation" with
  | .error e => .error e
  | .ok desg =>
  match getKey info "name" with
  | .error e => .error e
  | .ok nameRaw =>
  match getKey info "diameter" with
  | .error e => .error e
  | .ok dRaw =>
  match diameterField dRaw with
  | .error e => .error e
  | .ok diam =>
  match getKey info "hazardous" with
  | .error e => .error e
  | .ok hz => .ok ⟨⟨desg, nameField nameRaw, diam, hz.pyEqStr "Y"⟩, []⟩

/-- `CloseApproach.__init__`: the statements of the constructor in source
order, each dictionary access and conversion propagating its exception. -/
def caNew (info : FieldMap) : Except PyErr CloseApproach :=
  match getKey info "designation" with
  | .error e => .error e
  | .ok desg =>
  match getKey info "time" with
  | .error e => .error e
  | .ok tRaw =>
  match timeField tRaw with
  | .error e => .error e
  | .ok time =>
  match getKey info "distance" with
  | .error e => .error e
  | .ok dRaw =>
  match pyFloat dRaw with
  | .error e => .error e
  | .ok dist =>
  match getKey info "velocity" with
  | .error e => .error e
  | .ok vRaw =>
  match pyFloat vRaw with
  | .error e => .error e
  | .ok vel => .ok ⟨pyStr desg, time, dist, vel, none⟩

/-- Modelled from the spec: the external linking step (the `NEODatabase`
constructor, not under `src/`) sets a close approach's `neo` reference to its
owning NEO's data. -/
def linkNeo (ca : CloseApproach) (nd : NeoData) : CloseApproach :=
  ⟨ca._designation, ca.time, ca.distance, ca.velocity, some nd⟩

/-- The `fullname` property: `f"{designation}"` when `name` is `None`,
otherwise `f"{designation} {name}"`. -/
def NeoData.fullname (self : NeoData) : String :=
  match self.name with
  | none => pyStr self.designation
  | some v => pyStr self.designation ++ " " ++ pyStr v

/-- The `finaldiameter` property: `"unknown"` when `diameter == float('nan')`
(a comparison that is always false under Python float semantics), otherwise
`f"{diameter:.3f}"`. -/
def NeoData.finaldiameter (self : NeoData) : String :=
  if self.diameter.pyEq PFloat.nan then "unknown"
  else formatFixed self.diameter 3

/-- `NearEarthObject.__str__`. -/
def NeoData.neoStr (self : NeoData) : String :=
  let hazardousphrase :=
    if self.hazardous then "is potentially hazardous"
    else "is not potentially hazardous"
  "A NearEarthObject " ++ self.fullname ++ " has a diameter of "
    ++ self.finaldiameter ++ " km and " ++ hazardousphrase ++ "."

/-- `NearEarthObject.__repr__`: note that `diameter` goes through `:.3f`
formatting, which renders the not-a-number sentinel as "nan". -/
def NeoData.neoRepr (self : NeoData) : String :=
  "NearEarthObject(designation=" ++ pyRepr self.designation
    ++ ", name=" ++ optRepr self.name
    ++ ", diameter=" ++ formatFixed self.diameter 3
    ++ ", hazardous=" ++ boolRepr self.hazardous ++ ")"

/-- The `time_str` property: `datetime_to_str(self.time)`. -/
def CloseApproach.time_str (self : CloseApproach) : String :=
  datetime_to_str self.time

/-- The dictionary returned by `CloseApproach.serialize`, with its exact
keys. -/
structure SerializedNeo where
  designation : RawVal
  name : Option RawVal
  diameter_km : PFloat
  potentially_hazardous : Bool
deriving DecidableEq

/-- The top-level dictionary returned by `CloseApproach.serialize`. -/
structure Serialized where
  datetime_utc : String
  distance_au : PFloat
  velocity_km_s : PFloat
  neo : SerializedNeo
deriving DecidableEq

/-- `CloseApproach.serialize`: builds the result dictionary; reading
`self.neo.designation` on an unlinked approach (`neo` is `None`) raises an
`AttributeError`. -/
def CloseApproach.serialize (self : CloseApproach) : Except PyErr Serialized :=
  match self.neo with
  | none => .error .attributeError
  | some nd =>
      .ok ⟨datetime_to_str self.time, self.distance, self.velocity,
        ⟨nd.designation, nd.name, nd.diameter, nd.hazardous⟩⟩

/-- `CloseApproach.__str__`: when `self.neo` is truthy (a linked NEO object is
always truthy) the sentence uses the NEO's `fullname` — and the source's two
adjacent f-string fragments put two spaces between "approaches" and "Earth";
the unlinked sentence uses the raw `_designation` with a single space. -/
def CloseApproach.caStr (self : CloseApproach) : String :=
  match self.neo with
  | some nd =>
      "At " ++ self.time_str ++ ", \x27" ++ nd.fullname
        ++ "\x27 approaches  Earth at a distance of "
        ++ formatFixed self.distance 2 ++ " au and a velocity of "
        ++ formatFixed self.velocity 2 ++ " km/s."
  | none =>
      "At " ++ self.time_str ++ ", \x27" ++ self._designation
        ++ "\x27 approaches Earth at a distance of "
        ++ formatFixed self.distance 2 ++ " au and a velocity of "
        ++ formatFixed self.velocity 2 ++ " km/s."

/-- Python `repr` of the `neo` attribute: `repr(None)` or the NEO's debug
form. -/
def neoOptRepr : Option NeoData → String
  | none => "None"
  | some nd => nd.neoRepr

/-- `CloseApproach.__repr__`. -/
def CloseApproach.caRepr (self : CloseApproach) : String :=
  "CloseApproach(time=" ++ "\x27" ++ self.time_str ++ "\x27"
    ++ ", distance=" ++ formatFixed self.distance 2
    ++ ", velocity=" ++ formatFixed self.velocity 2
    ++ ", neo=" ++ neoOptRepr self.neo ++ ")"

/-- The state-passing view of `fullname`: the property's result paired with
the receiver after the call.  The source body contains no assignment to a
field of `self`, so the post-call state is the unchanged receiver. -/
def NearEarthObject.fullnameM (self : NearEarthObject) :
    String × NearEarthObject :=
  (self.toNeoData.fullname, self)

/-- The state-passing view of `finaldiameter`. -/
def NearEarthObject.finaldiameterM (self : NearEarthObject) :
    String × NearEarthObject :=
  (self.toNeoData.finaldiameter, self)

/-- The state-passing view of `NearEarthObject.__str__`. -/
def NearEarthObject.strM (self : NearEarthObject) :
    String × NearEarthObject :=
  (self.toNeoData.neoStr, self)

/-- The state-passing view of `NearEarthObject.__repr__`. -/
def NearEarthObject.reprM (self : NearEarthObject) :
    String × NearEarthObject :=
  (self.toNeoData.neoRepr, self)

/-- The state-passing view of `time_str`. -/
def CloseApproach.time_strM (self : CloseApproach) :
    String × CloseApproach :=
  (self.time_str, self)

/-- The state-passing view of `serialize`. -/
def CloseApproach.serializeM (self : CloseApproach) :
    Except PyErr Serialized × CloseApproach :=
  (self.serialize, self)

/-- The state-passing view of `CloseApproach.__str__`. -/
def CloseApproach.strM (self : CloseApproach) :
    String × CloseApproach :=
  (self.caStr, self)

/-- The state-passing view of `CloseApproach.__repr__`. -/
def CloseApproach.reprM (self : CloseApproach) :
    String × CloseApproach :=
  (self.caRepr, self)

/-- Inversion for `NearEarthObject.__init__`: a successful construction
determines, and is determined by, the four field lookups and the diameter
conversion. -/
theorem neoNew_ok_iff (info : FieldMap) (n : NearEarthObject) :
    neoNew info = .ok n ↔
      ∃ desg nameRaw dRaw diam hz,
        List.lookup "designation" info = some desg ∧
        List.lookup "name" info = some nameRaw ∧
        List.lookup "diameter" info = some dRaw ∧
        diameterField dRaw = .ok diam ∧
        List.lookup "hazardous" info = some hz ∧
        n = ⟨⟨desg, nameField nameRaw, diam, hz.pyEqStr "Y"⟩, []⟩ := by
  constructor
  · intro h
    cases hd : List.lookup "designation" info with
    | none => simp [neoNew, getKey, hd] at h
    | some desg =>
      cases hn : List.lookup "name" info with
      | none => simp [neoNew, getKey, hd, hn] at h
      | some nameRaw =>
        cases hm : List.lookup "diameter" info with
        | none => simp [neoNew, getKey, hd, hn, hm] at h
        | some dRaw =>
          cases hdf : diameterField dRaw with
          | error e => simp [neoNew, getKey, hd, hn, hm, hdf] at h
          | ok diam =>
            cases hh : List.lookup "hazardous" info with
            | none => simp [neoNew, getKey, hd, hn, hm, hdf, hh] at h
            | some hz =>
              simp only [neoNew, getKey, hd, hn, hm, hdf, hh,
                Except.ok.injEq] at h
              exact ⟨desg, nameRaw, dRaw, diam, hz, rfl, rfl, rfl, hdf, rfl,
                h.symm⟩
  · rintro ⟨desg, nameRaw, dRaw, diam, hz, h1, h2, h3, h4, h5, rfl⟩
    simp [neoNew, getKey, h1, h2, h3, h4, h5]

/-- Inversion for `CloseApproach.__init__`. -/
theorem caNew_ok_iff (info : FieldMap) (ca : CloseApproach) :
    caNew info = .ok ca ↔
      ∃ desg tRaw time dRaw dist vRaw vel,
        List.lookup "designation" info = some desg ∧
        List.lookup "time" info = some tRaw ∧
        timeField tRaw = .ok time ∧
        List.lookup "distance" info = some dRaw ∧
        pyFloat dRaw = .ok dist ∧
        List.lookup "velocity" info = some vRaw ∧
        pyFloat vRaw = .ok vel ∧
        ca = ⟨pyStr desg, time, dist, vel, none⟩ := by
  constructor
  · intro h
    cases hd : List.lookup "designation" info with
    | none => simp [caNew, getKey, hd] at h
    | some desg =>
      cases ht : List.lookup "time" info with
      | none => simp [caNew, getKey, hd, ht] at h
      | some tRaw =>
        cases htf : timeField tRaw with
        | error e => simp [caNew, getKey, hd, ht, htf] at h
        | ok time =>
          cases hm : List.lookup "distance" info with
          | none => simp [caNew, getKey, hd, ht, htf, hm] at h
          | some dRaw =>
            cases hmf : pyFloat dRaw with
            | error e => simp [caNew, getKey, hd, ht, htf, hm, hmf] at h
            | ok dist =>
              cases hv : List.lookup "velocity" info with
              | none => simp [caNew, getKey, hd, ht, htf, hm, hmf, hv] at h
              | some vRaw =>
                cases hvf : pyFloat vRaw with
                | error e =>
                  simp [caNew, getKey, hd, ht, htf, hm, hmf, hv, hvf] at h
                | ok vel =>
                  simp only [caNew, getKey, hd, ht, htf, hm, hmf, hv, hvf,
                    Except.ok.injEq] at h
                  exact ⟨desg, tRaw, time, dRaw, dist, vRaw, vel, rfl, rfl,
                    htf, rfl, hmf, rfl, hvf, h.symm⟩
  · rintro ⟨desg, tRaw, time, dRaw, dist, vRaw, vel,
      h1, h2, h3, h4, h5, h6, h7, rfl⟩
    simp [caNew, getKey, h1, h2, h3, h4, h5, h6, h7]

/-- Python float equality against the not-a-number value is always false, for
every float, the not-a-number value itself included. -/
theorem pyEq_nan_right (x : PFloat) : x.pyEq PFloat.nan = false := by
  cases x <;> rfl

/-- The spec's Eros scenario field mapping. -/
def erosInfo : FieldMap :=
  [("designation", .rstr "433"), ("name", .rstr "Eros"),
   ("diameter", .rstr "16.84"), ("hazardous", .rstr "N")]

/-- The NEO core data the Eros scenario constructs (16.84 stored as the
fraction 1684/100 the parser produces). -/
def erosData : NeoData :=
  ⟨.rstr "433", some (.rstr "Eros"), .fin ⟨1684, 100⟩, false⟩

/-- The NEO the Eros scenario constructs. -/
def erosNeo : NearEarthObject := ⟨erosData, []⟩

/-- The spec's no-name scenario field mapping. -/
def abInfo : FieldMap :=
  [("designation", .rstr "2015 AB"), ("name", .rstr ""),
   ("diameter", .rstr ""), ("hazardous", .rstr "Y")]

/-- The NEO the no-name scenario constructs. -/
def abNeo : NearEarthObject := ⟨⟨.rstr "2015 AB", none, .nan, true⟩, []⟩

/-- The spec's close-approach scenario field mapping. -/
def demoCaInfo : FieldMap :=
  [("designation", .rstr "433"), ("time", .rstr "1900-Jan-01 00:00"),
   ("distance", .rstr "0.092"), ("velocity", .rstr "13.27")]

/-- The (still unlinked) close approach the scenario constructs (0.092 and
13.27 stored as the fractions the parser produces). -/
def demoCa : CloseApproach :=
  ⟨"433", some ⟨1900, 1, 1, 0, 0⟩, .fin ⟨92, 1000⟩, .fin ⟨1327, 100⟩, none⟩

/-- C1: the claim says an empty diameter string makes `finaldiameter` return
the literal "unknown".  The code disagrees: the constructor stores the
not-a-number sentinel, but `finaldiameter`'s test `diameter == float('nan')`
is always false under Python float semantics, so the "unknown" branch is dead
and the sentinel is formatted as "nan".  This theorem evaluates the code at
the failing input: constructing with `diameter` equal to the empty string and
reading `finaldiameter` yields "nan", not "unknown". -/
theorem C1_finaldiameter_code_bug :
    neoNew abInfo = .ok abNeo ∧
      abNeo.toNeoData.finaldiameter = "nan" ∧
      abNeo.toNeoData.finaldiameter ≠ "unknown" := by
  refine ⟨by decide, by decide, by decide⟩

/-- C2 counterexample: the claim says construction with the `hazardous` field
absent succeeds and yields `hazardous = false`; in the code the constructor
reads `info['hazardous']` unconditionally, so the construction fails with a
key error instead. -/
theorem C2_hazardous_counterexample :
    neoNew [("designation", .rstr "433"), ("name", .rstr "Eros"),
      ("diameter", .rstr "16.84")] = .error (.keyError "hazardous") := rfl

/-- C2 (amended): for every construction in which the `hazardous` key is
present, the stored flag is true exactly when the raw value is the string
"Y" (so "N", the empty string, and the value `None` all give false); when the
`hazardous` key is absent the construction never succeeds. -/
theorem C2_hazardous_amended :
    (∀ (info : FieldMap) (v : RawVal) (n : NearEarthObject),
        List.lookup "hazardous" info = some v → neoNew info = .ok n →
        (n.hazardous = true ↔ v = .rstr "Y")) ∧
    (∀ info : FieldMap, List.lookup "hazardous" info = none →
        ∀ n, neoNew info ≠ .ok n) := by
  constructor
  · intro info v n hv hok
    rcases (neoNew_ok_iff info n).1 hok with
      ⟨desg, nameRaw, dRaw, diam, hz, h1, h2, h3, h4, h5, rfl⟩
    rw [hv] at h5
    injection h5 with h5
    subst h5
    cases v with
    | rnone => simp [RawVal.pyEqStr]
    | rstr t => simp [RawVal.pyEqStr]
  · intro info hnone n hok
    rcases (neoNew_ok_iff info n).1 hok with
      ⟨desg, nameRaw, dRaw, diam, hz, h1, h2, h3, h4, h5, rfl⟩
    rw [hnone] at h5
    cases h5

/-- C2 witness: the amended statement applied to the Eros scenario ("N" gives
false) and to the mapping with the `hazardous` key absent. -/
theorem C2_hazardous_witness :
    (erosNeo.hazardous = true ↔ RawVal.rstr "N" = RawVal.rstr "Y") ∧
      neoNew [("designation", .rstr "433"), ("name", .rstr "Eros"),
        ("diameter", .rstr "16.84")] ≠ .ok erosNeo :=
  ⟨C2_hazardous_amended.1 erosInfo (.rstr "N") erosNeo (by decide) (by decide),
   C2_hazardous_amended.2 [("designation", RawVal.rstr "433"), ("name", RawVal.rstr "Eros"), ("diameter", RawVal.rstr "16.84")] (by decide) erosNeo⟩

/-- C3: serializing a close approach whose `neo` reference is still absent
fails with an attribute error (reading `.designation` on `None`) rather than
returning a mapping with placeholder NEO data. -/
theorem C3_serialize_unlinked (ca : CloseApproach) (h : ca.neo = none) :
    ca.serialize = .error PyErr.attributeError := by
  simp [CloseApproach.serialize, h]

/-- C3 witness: the unlinked scenario approach. -/
theorem C3_serialize_unlinked_witness :
    demoCa.serialize = .error PyErr.attributeError :=
  C3_serialize_unlinked demoCa rfl

/-- C4: the constructor's `float(info['diameter']) != float('nan')` guard can
never reject a value, because Python float comparison against the
not-a-number value is always unequal (first conjunct: the equality test is
always false); hence for every non-empty diameter string whose conversion
succeeds, the converted value is stored as the diameter (second conjunct),
and the branch meant to map such a value to the unknown sentinel is
unreachable. -/
theorem C4_diameter_nan_check :
    (∀ x : PFloat, x.pyEq PFloat.nan = false) ∧
    (∀ (info : FieldMap) (s : String) (x : PFloat) (n : NearEarthObject),
        List.lookup "diameter" info = some (.rstr s) → s ≠ "" →
        parseFloat s = some x → neoNew info = .ok n →
        n.diameter = x) := by
  refine ⟨pyEq_nan_right, ?_⟩
  intro info s x n hl hs hp hok
  rcases (neoNew_ok_iff info n).1 hok with
    ⟨desg, nameRaw, dRaw, diam, hz, h1, h2, h3, h4, h5, rfl⟩
  rw [hl] at h3
  injection h3 with h3
  subst h3
  simp [diameterField, RawVal.pyEqStr, hs, pyFloat, hp, pyEq_nan_right] at h4
  exact h4.symm

/-- C4 witness: the Eros scenario stores the parsed 16.84 exactly. -/
theorem C4_diameter_nan_check_witness :
    erosNeo.diameter = PFloat.fin ⟨1684, 100⟩ :=
  C4_diameter_nan_check.2 erosInfo "16.84" (PFloat.fin ⟨1684, 100⟩) erosNeo
    (by decide) (by decide) (by decide) (by decide)

/-- C5: serializing a linked close approach round-trips the distance and
velocity stored at construction without any loss, and the nested `neo`
mapping's designation is the linked NEO's designation. -/
theorem C5_serialize_roundtrip (info : FieldMap) (ca : CloseApproach)
    (nd : NeoData) (hca : caNew info = .ok ca) :
    ∃ s, (linkNeo ca nd).serialize = .ok s ∧
      s.distance_au = ca.distance ∧ s.velocity_km_s = ca.velocity ∧
      s.neo.designation = nd.designation :=
  ⟨_, rfl, rfl, rfl, rfl⟩

/-- C5 witness: the scenario approach linked to the Eros NEO. -/
theorem C5_serialize_roundtrip_witness :
    ∃ s, (linkNeo demoCa erosData).serialize = .ok s ∧
      s.distance_au = demoCa.distance ∧ s.velocity_km_s = demoCa.velocity ∧
      s.neo.designation = erosData.designation :=
  C5_serialize_roundtrip demoCaInfo demoCa erosData (by decide)

/-- C6: a NEO constructed with a non-empty name has
`fullname = designation ++ " " ++ name`; constructed with an empty name, or
with the name supplied absent (the value `None` — the only way to construct
with no name, since the key itself must be present), `fullname` is the
designation alone. -/
theorem C6_fullname (info : FieldMap) (ds : String) (n : NearEarthObject)
    (hd : List.lookup "designation" info = some (.rstr ds))
    (hok : neoNew info = .ok n) :
    (∀ nm, List.lookup "name" info = some (.rstr nm) → nm ≠ "" →
        n.toNeoData.fullname = ds ++ " " ++ nm) ∧
    ((List.lookup "name" info = some (.rstr "") ∨
        List.lookup "name" info = some .rnone) →
      n.toNeoData.fullname = ds) := by
  rcases (neoNew_ok_iff info n).1 hok with
    ⟨desg, nameRaw, dRaw, diam, hz, h1, h2, h3, h4, h5, rfl⟩
  rw [hd] at h1
  injection h1 with h1
  subst h1
  constructor
  · intro nm hnm hne
    rw [hnm] at h2
    injection h2 with h2
    subst h2
    simp [NeoData.fullname, nameField, RawVal.pyEqStr, RawVal.isNone, hne,
      pyStr]
  · intro hcase
    rcases hcase with hc | hc
    · rw [hc] at h2
      injection h2 with h2
      subst h2
      simp [NeoData.fullname, nameField, RawVal.pyEqStr, RawVal.isNone, pyStr]
    · rw [hc] at h2
      injection h2 with h2
      subst h2
      simp [NeoData.fullname, nameField, RawVal.pyEqStr, RawVal.isNone, pyStr]

/-- C6 witness: the two spec scenarios (non-empty name "Eros"; empty name). -/
theorem C6_fullname_witness :
    erosNeo.toNeoData.fullname = "433" ++ " " ++ "Eros" ∧
      abNeo.toNeoData.fullname = "2015 AB" :=
  ⟨(C6_fullname erosInfo "433" erosNeo (by decide) (by decide)).1 "Eros"
      (by decide) (by decide),
    (C6_fullname abInfo "2015 AB" abNeo (by decide) (by decide)).2
      (Or.inl (by decide))⟩

/-- The sentence template of the amended C7, written from the spec's words:
the time, the identity string, a spacing string, and the two-decimal distance
and velocity are the only parts that vary. -/
def caSentence (idStr extra : String) (ca : CloseApproach) : String :=
  "At " ++ ca.time_str ++ ", \x27" ++ idStr
    ++ ("\x27 approaches " ++ extra ++ "Earth at a distance of ")
    ++ formatFixed ca.distance 2 ++ " au and a velocity of "
    ++ formatFixed ca.velocity 2 ++ " km/s."

/-- C7 counterexample: an unlinked approach, and the same approach linked to
a NEO whose `fullname` equals the approach's raw designation.  The claim says
the two human-readable strings can then differ only in the identity string —
so here they would be equal — but the linked sentence has two spaces between
"approaches" and "Earth" where the unlinked one has one, so they differ. -/
theorem C7_str_counterexample :
    NeoData.fullname ⟨.rstr "433", none, PFloat.nan, false⟩ =
        demoCa._designation ∧
      (linkNeo demoCa ⟨.rstr "433", none, PFloat.nan, false⟩).caStr ≠
        demoCa.caStr := by
  exact ⟨by decide, by decide⟩

/-- C7 (amended): both forms of `CloseApproach.__str__` follow one sentence
template with identical two-decimal distance and velocity formatting,
differing only in the identity string (the linked NEO's `fullname` versus the
raw pre-link designation) and in spacing: the linked form has an extra space
before "Earth". -/
theorem C7_str_amended (ca : CloseApproach) (nd : NeoData) :
    (ca.neo = some nd → ca.caStr = caSentence nd.fullname " " ca) ∧
    (ca.neo = none → ca.caStr = caSentence ca._designation "" ca) := by
  constructor
  · intro h
    simp only [CloseApproach.caStr, caSentence, h]
    rfl
  · intro h
    simp only [CloseApproach.caStr, caSentence, h]
    rfl

/-- C7 witness: the scenario approach in its unlinked and linked forms. -/
theorem C7_str_amended_witness :
    (linkNeo demoCa erosData).caStr =
        caSentence erosData.fullname " " (linkNeo demoCa erosData) ∧
      demoCa.caStr = caSentence demoCa._designation "" demoCa :=
  ⟨(C7_str_amended (linkNeo demoCa erosData) erosData).1 rfl,
    (C7_str_amended demoCa erosData).2 rfl⟩

/-- C8 counterexample: the claim says the debug form's three-decimal
formatting of an unknown (not-a-number) diameter produces a non-numeric
formatting error rather than a string; evaluating the code on a nan-diameter
NEO yields an ordinary string, with the diameter printed as "nan". -/
theorem C8_repr_counterexample :
    NeoData.neoRepr ⟨.rstr "2015 AB", none, PFloat.nan, true⟩ =
      "NearEarthObject(designation=\x272015 AB\x27, name=None, "
        ++ "diameter=nan, hazardous=True)" := by
  decide

/-- C8 (amended): the debug form formats the diameter through the
three-decimal fixed-point conversion, and when the diameter is the unknown
(not-a-number) sentinel that conversion yields the string "nan" — a normal
string result, not a formatting error. -/
theorem C8_repr_amended (nd : NeoData) (h : nd.diameter = PFloat.nan) :
    nd.neoRepr =
        "NearEarthObject(designation=" ++ pyRepr nd.designation ++ ", name="
          ++ optRepr nd.name ++ ", diameter=" ++ formatFixed nd.diameter 3
          ++ ", hazardous=" ++ boolRepr nd.hazardous ++ ")" ∧
      formatFixed nd.diameter 3 = "nan" := by
  refine ⟨rfl, ?_⟩
  rw [h]
  rfl

/-- C8 witness: a concrete nan-diameter NEO. -/
theorem C8_repr_amended_witness :
    NeoData.neoRepr ⟨.rstr "2015 AB", none, PFloat.nan, true⟩ =
        "NearEarthObject(designation=" ++ pyRepr (RawVal.rstr "2015 AB")
          ++ ", name=" ++ optRepr none ++ ", diameter="
          ++ formatFixed PFloat.nan 3 ++ ", hazardous=" ++ boolRepr true
          ++ ")" ∧
      formatFixed PFloat.nan 3 = "nan" :=
  C8_repr_amended ⟨.rstr "2015 AB", none, PFloat.nan, true⟩ rfl

/-- C9 counterexample: with the `hazardous` key absent but an unparsable
`diameter` value present, `NearEarthObject` construction fails with the
diameter conversion's value error, not with a key-lookup error, so "fails
with a key-lookup error if any declared field key is missing" does not hold
as stated. -/
theorem C9_keys_counterexample :
    List.lookup "hazardous" [("designation", RawVal.rstr "433"),
        ("name", RawVal.rstr "Eros"), ("diameter", RawVal.rstr "abc")]
        = none ∧
      neoNew [("designation", RawVal.rstr "433"),
        ("name", RawVal.rstr "Eros"), ("diameter", RawVal.rstr "abc")]
        = .error PyErr.valueError := by
  exact ⟨by decide, by decide⟩

/-- C9 (amended): both constructors require every declared field key —
construction never succeeds when any of them is missing (first two
conjuncts) — and the failure is the key-lookup error naming the missing key
whenever the values the constructor converts before reaching that key convert
successfully (remaining conjuncts); when an earlier conversion fails, that
conversion's error surfaces instead (construction still fails). -/
theorem C9_keys_amended :
    (∀ info : FieldMap,
        (List.lookup "designation" info = none ∨
          List.lookup "name" info = none ∨
          List.lookup "diameter" info = none ∨
          List.lookup "hazardous" info = none) →
        ∀ n, neoNew info ≠ .ok n) ∧
    (∀ info : FieldMap,
        (List.lookup "designation" info = none ∨
          List.lookup "time" info = none ∨
          List.lookup "distance" info = none ∨
          List.lookup "velocity" info = none) →
        ∀ ca, caNew info ≠ .ok ca) ∧
    (∀ info : FieldMap, List.lookup "designation" info = none →
        neoNew info = .error (.keyError "designation")) ∧
    (∀ (info : FieldMap) (d : RawVal),
        List.lookup "designation" info = some d →
        List.lookup "name" info = none →
        neoNew info = .error (.keyError "name")) ∧
    (∀ (info : FieldMap) (d v : RawVal),
        List.lookup "designation" info = some d →
        List.lookup "name" info = some v →
        List.lookup "diameter" info = none →
        neoNew info = .error (.keyError "diameter")) ∧
    (∀ (info : FieldMap) (d v w : RawVal) (x : PFloat),
        List.lookup "designation" info = some d →
        List.lookup "name" info = some v →
        List.lookup "diameter" info = some w →
        diameterField w = .ok x →
        List.lookup "hazardous" info = none →
        neoNew info = .error (.keyError "hazardous")) ∧
    (∀ info : FieldMap, List.lookup "designation" info = none →
        caNew info = .error (.keyError "designation")) ∧
    (∀ (info : FieldMap) (d : RawVal),
        List.lookup "designation" info = some d →
        List.lookup "time" info = none →
        caNew info = .error (.keyError "time")) ∧
    (∀ (info : FieldMap) (d t : RawVal) (tv : Option DateTime),
        List.lookup "designation" info = some d →
        List.lookup "time" info = some t →
        timeField t = .ok tv →
        List.lookup "distance" info = none →
        caNew info = .error (.keyError "distance")) ∧
    (∀ (info : FieldMap) (d t u : RawVal) (tv : Option DateTime)
        (x : PFloat),
        List.lookup "designation" info = some d →
        List.lookup "time" info = some t →
        timeField t = .ok tv →
        List.lookup "distance" info = some u →
        pyFloat u = .ok x →
        List.lookup "velocity" info = none →
        caNew info = .error (.keyError "velocity")) := by
  refine ⟨?_, ?_, ?_, ?_, ?_, ?_, ?_, ?_, ?_, ?_⟩
  · intro info hmiss n hok
    rcases (neoNew_ok_iff info n).1 hok with
      ⟨desg, nameRaw, dRaw, diam, hz, h1, h2, h3, h4, h5, _⟩
    rcases hmiss with hm | hm | hm | hm
    · rw [hm] at h1; cases h1
    · rw [hm] at h2; cases h2
    · rw [hm] at h3; cases h3
    · rw [hm] at h5; cases h5
  · intro info hmiss ca hok
    rcases (caNew_ok_iff info ca).1 hok with
      ⟨desg, tRaw, time, dRaw, dist, vRaw, vel, h1, h2, h3, h4, h5, h6, h7, _⟩
    rcases hmiss with hm | hm | hm | hm
    · rw [hm] at h1; cases h1
    · rw [hm] at h2; cases h2
    · rw [hm] at h4; cases h4
    · rw [hm] at h6; cases h6
  · intro info h1
    simp [neoNew, getKey, h1]
  · intro info d h1 h2
    simp [neoNew, getKey, h1, h2]
  · intro info d v h1 h2 h3
    simp [neoNew, getKey, h1, h2, h3]
  · intro info d v w x h1 h2 h3 h4 h5
    simp [neoNew, getKey, h1, h2, h3, h4, h5]
  · intro info h1
    simp [caNew, getKey, h1]
  · intro info d h1 h2
    simp [caNew, getKey, h1, h2]
  · intro info d t tv h1 h2 h3 h4
    simp [caNew, getKey, h1, h2, h3, h4]
  · intro info d t u tv x h1 h2 h3 h4 h5 h6
    simp [caNew, getKey, h1, h2, h3, h4, h5, h6]

/-- C9 witness: each conjunct of the amended statement applied to a concrete
mapping with the relevant key absent. -/
theorem C9_keys_amended_witness :
    neoNew [("name", RawVal.rstr "x"), ("diameter", RawVal.rstr ""),
        ("hazardous", RawVal.rstr "Y")] ≠ .ok abNeo ∧
      caNew [("designation", RawVal.rstr "433")] ≠ .ok demoCa ∧
      neoNew [] = .error (.keyError "designation") ∧
      neoNew [("designation", RawVal.rstr "1")] = .error (.keyError "name") ∧
      neoNew [("designation", RawVal.rstr "1"), ("name", RawVal.rstr "n")]
        = .error (.keyError "diameter") ∧
      neoNew [("designation", RawVal.rstr "1"), ("name", RawVal.rstr "n"),
        ("diameter", RawVal.rstr "")] = .error (.keyError "hazardous") ∧
      caNew [] = .error (.keyError "designation") ∧
      caNew [("designation", RawVal.rstr "1")] = .error (.keyError "time") ∧
      caNew [("designation", RawVal.rstr "1"), ("time", RawVal.rnone)]
        = .error (.keyError "distance") ∧
      caNew [("designation", RawVal.rstr "1"), ("time", RawVal.rnone),
        ("distance", RawVal.rstr "1.0")] = .error (.keyError "velocity") :=
  ⟨C9_keys_amended.1 _ (Or.inl (by decide)) abNeo,
    C9_keys_amended.2.1 _ (Or.inr (Or.inl (by decide))) demoCa,
    C9_keys_amended.2.2.1 [] (by decide),
    C9_keys_amended.2.2.2.1 _ (.rstr "1") (by decide) (by decide),
    C9_keys_amended.2.2.2.2.1 _ (.rstr "1") (.rstr "n") (by decide)
      (by decide) (by decide),
    C9_keys_amended.2.2.2.2.2.1 _ (.rstr "1") (.rstr "n") (.rstr "")
      PFloat.nan (by decide) (by decide) (by decide) (by decide) (by decide),
    C9_keys_amended.2.2.2.2.2.2.1 [] (by decide),
    C9_keys_amended.2.2.2.2.2.2.2.1 _ (.rstr "1") (by decide) (by decide),
    C9_keys_amended.2.2.2.2.2.2.2.2.1 _ (.rstr "1") .rnone none (by decide)
      (by decide) (by decide) (by decide),
    C9_keys_amended.2.2.2.2.2.2.2.2.2 _ (.rstr "1") .rnone (.rstr "1.0") none
      (PFloat.fin ⟨10, 10⟩) (by decide) (by decide) (by decide) (by decide)
      (by decide) (by decide)⟩

/-- C10: every derived-value operation on both types — `fullname`,
`finaldiameter`, `__str__` and `__repr__` on the NEO, and `time_str`,
`serialize`, `__str__` and `__repr__` on the close approach — is read-only:
its state-passing translation returns the receiver with every field
unchanged. -/
theorem C10_read_only (n : NearEarthObject) (ca : CloseApproach) :
    n.fullnameM.2 = n ∧ n.finaldiameterM.2 = n ∧ n.strM.2 = n ∧
      n.reprM.2 = n ∧ ca.time_strM.2 = ca ∧ ca.serializeM.2 = ca ∧
      ca.strM.2 = ca ∧ ca.reprM.2 = ca :=
  ⟨rfl, rfl, rfl, rfl, rfl, rfl, rfl, rfl⟩
